import Mathlib

/-!
# Verification of the survey server (`main.py`)

Shallow embedding of the survey server's request pipeline:

* `dbexecute`-backed storage is modelled as an explicit `Store` value: the
  `survey` table is a list of `SurveyRow`s, the `response` table a list of
  `ResponseRow`s.  An `INSERT INTO response` appends one row; the two
  aggregate `SELECT`s (`json_group_object` over `survey`,
  `json_group_array(data)` over `response`) are modelled as pure folds over
  those lists, rendered with SQLite's JSON string escaping.
* `get_surveys` (decorated with `alru_cache`) is modelled with the cache as
  explicit state: an `Option Catalog` threaded through every call.
* `get_action` mirrors `path.strip("/").split("/", 2)[0]`.
* `app` mirrors the RSGI handler: it receives a `Scope` (method, path,
  `user-agent` header, request body text) and returns the rendered response
  together with the updated store and cache.  `scope.headers.get("user-agent")`
  may return `None`, in which case `agent.casefold()` raises an uncaught
  `AttributeError`; that aborted request is modelled as `resp = none`
  (no response is rendered; the store is untouched).
* Python's `str.casefold()` is modelled as `String.toLower`, which agrees
  with it on the ASCII allow-list prefix `"python"` being tested.
-/

namespace ApiSurvey

/-- One row of the `survey` table (the `created` column is never read by the
handler and is omitted; `expiry` is a stored timestamp, modelled as `Int`). -/
structure SurveyRow where
  title : String
  question : String
  expiry : Int
deriving Repr, DecidableEq

/-- One row of the `response` table, as written by the handler's
`INSERT INTO response(title,data,agent) VALUES (:title,:data,:agent)`
(the `created` column is database-assigned and never read). -/
structure ResponseRow where
  title : String
  data : String
  agent : String
deriving Repr, DecidableEq

/-- The embedded SQLite database `survey.db`: its two tables. -/
structure Store where
  surveys : List SurveyRow
  responses : List ResponseRow
deriving Repr, DecidableEq

/-- The in-memory survey catalog produced by `get_surveys`: title together
with its `{question, expiry}` value, in table order. -/
abbrev Catalog := List (String × String × Int)

/-- The aggregate
`SELECT json_group_object(title, json_object('question',question,'expiry',expiry)) FROM survey`
followed by `orjson.loads`: the survey table folded to its title-keyed mapping. -/
def catalogOfStore (st : Store) : Catalog :=
  st.surveys.map (fun s => (s.title, s.question, s.expiry))

/-- Python `action not in surveys` on the catalog dict, as a membership test
on the keys. -/
def catalogHas (c : Catalog) (action : String) : Bool :=
  c.any (fun kv => kv.1 == action)

/-- Result of one call to the cached `get_surveys`: the returned catalog, the
cache state after the call, and whether the call issued a storage query. -/
structure CacheResult where
  value : Catalog
  cache : Option Catalog
  queried : Bool
deriving Repr, DecidableEq

/-- The cached catalog read `get_surveys` under `@alru_cache`: the first
call queries storage and memoizes the parsed catalog; any later call
returns the memoized value without touching storage. -/
def get_surveys (cache : Option Catalog) (st : Store) : CacheResult :=
  match cache with
  | some c => ⟨c, some c, false⟩
  | none => ⟨catalogOfStore st, some (catalogOfStore st), true⟩

/-- Python `path.strip("/")` on the character list: drop `/` from both
ends. -/
def strip_slashes (cs : List Char) : List Char :=
  ((cs.dropWhile (· == '/')).reverse.dropWhile (· == '/')).reverse

/-- The router `get_action`: `path.strip("/").split("/", 2)[0]` — the first
segment of the stripped path (everything before the first remaining `/`),
possibly the empty string. -/
def get_action (path : String) : String :=
  String.mk ((strip_slashes path.toList).takeWhile (fun c => !(c == '/')))

/-- Python `str.casefold()`, modelled as per-character lower-casing (they
agree on the ASCII allow-list token `"python"` the handler tests). -/
def casefold (s : String) : String :=
  String.mk (s.toList.map Char.toLower)

/-- Python `str.startswith` on character lists: does the first list begin
with the second? -/
def startsWithChars : List Char → List Char → Bool
  | _, [] => true
  | [], _ :: _ => false
  | c :: cs, p :: ps => (c == p) && startsWithChars cs ps

/-- The client gate `agent.casefold().startswith("python")`. -/
def clientAllowed (agent : String) : Bool :=
  startsWithChars (casefold agent).toList "python".toList

/-- Hexadecimal digit characters (lower case), for `\u00XX` escapes. -/
def hexDigit (n : Nat) : Char :=
  if n < 10 then Char.ofNat (48 + n) else Char.ofNat (87 + n)

/-- JSON escaping of one character as performed both by SQLite's JSON
functions and by `orjson` when serializing a string: `"`, `\`, the
two-character control escapes, and `\u00XX` for other control characters. -/
def escChar (c : Char) : String :=
  if c == '"' then "\\\""
  else if c == '\\' then "\\\\"
  else if c == '\x08' then "\\b"
  else if c == '\x0c' then "\\f"
  else if c == '\n' then "\\n"
  else if c == '\r' then "\\r"
  else if c == '\t' then "\\t"
  else if c.toNat < 32 then
    "\\u00" ++ (hexDigit (c.toNat / 16)).toString ++ (hexDigit (c.toNat % 16)).toString
  else c.toString

/-- A string rendered as a JSON string literal (quoted, contents escaped). -/
def jsonStr (s : String) : String :=
  "\"" ++ String.join (s.toList.map escChar) ++ "\""

/-- The aggregate `SELECT json_group_array(data) FROM response`: the `data`
column of the given rows rendered as one compact JSON array of strings
(SQLite emits no whitespace; the empty aggregate is `[]`). -/
def jsonArrayOfStrings (l : List String) : String :=
  "[" ++ String.intercalate "," (l.map jsonStr) ++ "]"

/-- Body of a successful GET: the aggregate JSON array over ALL response
rows (the query has no WHERE clause, so it is not scoped by survey). -/
def retrieveBody (st : Store) : String :=
  jsonArrayOfStrings (st.responses.map (·.data))

/-- The POST success payload
`f'"Successfully submitted answer \\"{answer}\\"."'`: the fixed template's
quotes are escaped, but the answer text is interpolated verbatim. -/
def successBody (answer : String) : String :=
  "\"Successfully submitted answer \\\"" ++ answer ++ "\\\".\""

/-- The rendering `orjson.dumps({"error": {"code": code, "message":
message}}, option=orjson.OPT_INDENT_2 | orjson.OPT_APPEND_NEWLINE)
.decode()`: the error envelope with exactly the keys `error.code`
(integer) and `error.message` (string), pretty-printed with 2-space
indentation and a trailing newline. -/
def renderError (code : Nat) (message : String) : String :=
  "\x7b\n  \"error\": \x7b\n    \"code\": " ++ toString code
    ++ ",\n    \"message\": " ++ jsonStr message ++ "\n  \x7d\n\x7d\n"

/-- The RSGI scope as used by the handler: method, path, the
`user-agent` header (`scope.headers.get` yields `None` when absent), and
the request body already decoded to text (what `(await proto()).decode()`
returns). -/
structure Scope where
  method : String
  path : String
  userAgent : Option String
  body : String
deriving Repr, DecidableEq

/-- The rendered response: status code, the single `content-type` header
value, and the body string passed to `proto.response_str`. -/
structure Resp where
  status : Nat
  contentType : String
  body : String
deriving Repr, DecidableEq

/-- Outcome of one request: the rendered response (`none` when the handler
raised an uncaught exception and rendered nothing), the store after the
request, and the `get_surveys` cache after the request. -/
structure AppResult where
  resp : Option Resp
  store : Store
  cache : Option Catalog
deriving Repr, DecidableEq

/-- The fixed 451 rejection message. -/
def rejectionMessage : String := "Try using a Python HTTP client"

/-- The content type attached to every rendered response. -/
def contentType : String := "application/json"

/-- The RSGI handler `app`.  Mirrors the source line by line: `get_surveys`
and `get_action` run first; then `agent.casefold().startswith("python")`
(raising when the header is absent — modelled as `resp := none`); then the
catalog membership test; then dispatch on the method, POST inserting one
response row and GET running the unscoped aggregate; finally a non-200
status replaces the body with the error envelope. -/
def app (sc : Scope) (cache : Option Catalog) (st : Store) : AppResult :=
  let r := get_surveys cache st
  let action := get_action sc.path
  match sc.userAgent with
  | none => ⟨none, st, r.cache⟩
  | some agent =>
    if !clientAllowed agent then
      ⟨some ⟨451, contentType, renderError 451 rejectionMessage⟩, st, r.cache⟩
    else if !catalogHas r.value action then
      ⟨some ⟨404, contentType,
        renderError 404 ("Could not find any survey called " ++ action)⟩, st, r.cache⟩
    else if sc.method == "POST" then
      ⟨some ⟨200, contentType, successBody sc.body⟩,
        { st with responses := st.responses ++ [⟨action, sc.body, agent⟩] }, r.cache⟩
    else if sc.method == "GET" then
      ⟨some ⟨200, contentType, retrieveBody st⟩, st, r.cache⟩
    else
      ⟨some ⟨200, contentType, "\"\""⟩, st, r.cache⟩

/-- The three seeded surveys of `dbinit` (expiry 2022-12-02 10:00 local,
kept abstract as its integer timestamp). -/
def seedStore : Store :=
  { surveys :=
      [ ⟨"favorite",
         "What is your favorite type of snake OR favorite Monty Python quote?",
         1669975200⟩,
        ⟨"automation",
         "Name an automation tool or language you use for configuring or managing systems.",
         1669975200⟩,
        ⟨"task", "What is a task you wish you could script or automate?", 1669975200⟩ ],
    responses := [] }

/-- Iterate the handler on the same scope: the next request sees the store
and cache left by the previous one. -/
def postN : Nat → Scope → Option Catalog → Store → Store
  | 0, _, _, st => st
  | n + 1, sc, c, st => postN n sc (app sc c st).cache (app sc c st).store

/-- Characters allowed after a backslash in a JSON string literal (the
one-character escapes; `\uXXXX` escapes never occur in the bodies checked
here). -/
def escOk (c : Char) : Bool :=
  c == '"' || c == '\\' || c == '/' || c == 'b' || c == 'f' || c == 'n' || c == 'r' || c == 't'

/-- Checks the remainder of a JSON string literal after its opening quote:
the closing quote must be the final character, inner quotes must be
escaped, every backslash must begin a legal escape, and control
characters may not appear raw. -/
def jsonStrTail : List Char → Bool
  | [] => false
  | c :: rest =>
    if c = '"' then rest.isEmpty
    else if c = '\\' then
      match rest with
      | [] => false
      | e :: rest2 => escOk e && jsonStrTail rest2
    else Nat.ble 32 c.toNat && jsonStrTail rest

/-- Is the whole string one well-formed JSON string literal? -/
def isJsonStringLit (s : String) : Bool :=
  match s.toList with
  | '"' :: rest => jsonStrTail rest
  | _ => false

/-- Modelled from the spec (claim C1): escaping a string's quote and
backslash characters for embedding inside a JSON string literal. -/
def escapeQB (s : String) : String :=
  String.join (s.toList.map fun c => if c = '"' ∨ c = '\\' then "\\" ++ c.toString else c.toString)

/-- Modelled from the spec (claim C1): the claimed success payload, with
the answer's quotes and backslashes escaped before interpolation. -/
def specSuccessBody (answer : String) : String :=
  "\"Successfully submitted answer \\\"" ++ escapeQB answer ++ "\\\".\""

/-! ## Branch lemmas for the handler -/

theorem get_surveys_cache_eq (c : Option Catalog) (st : Store) :
    (get_surveys c st).cache = some (get_surveys c st).value := by
  cases c <;> rfl

theorem app_crash (sc : Scope) (c : Option Catalog) (st : Store)
    (hA : sc.userAgent = none) :
    app sc c st = ⟨none, st, (get_surveys c st).cache⟩ := by
  simp [app, hA]

theorem app_451 (sc : Scope) (agent : String) (c : Option Catalog) (st : Store)
    (hA : sc.userAgent = some agent) (hNot : clientAllowed agent = false) :
    app sc c st
      = ⟨some ⟨451, contentType, renderError 451 rejectionMessage⟩, st,
         (get_surveys c st).cache⟩ := by
  simp [app, hA, hNot]

theorem app_404 (sc : Scope) (agent : String) (c : Option Catalog) (st : Store)
    (hA : sc.userAgent = some agent) (hYes : clientAllowed agent = true)
    (hMiss : catalogHas (get_surveys c st).value (get_action sc.path) = false) :
    app sc c st
      = ⟨some ⟨404, contentType,
           renderError 404 ("Could not find any survey called " ++ get_action sc.path)⟩,
         st, (get_surveys c st).cache⟩ := by
  simp [app, hA, hYes, hMiss]

theorem app_post (sc : Scope) (agent : String) (c : Option Catalog) (st : Store)
    (hA : sc.userAgent = some agent) (hYes : clientAllowed agent = true)
    (hHit : catalogHas (get_surveys c st).value (get_action sc.path) = true)
    (hM : sc.method = "POST") :
    app sc c st
      = ⟨some ⟨200, contentType, successBody sc.body⟩,
         { st with responses := st.responses ++ [⟨get_action sc.path, sc.body, agent⟩] },
         (get_surveys c st).cache⟩ := by
  simp [app, hA, hYes, hHit, hM]

theorem app_get (sc : Scope) (agent : String) (c : Option Catalog) (st : Store)
    (hA : sc.userAgent = some agent) (hYes : clientAllowed agent = true)
    (hHit : catalogHas (get_surveys c st).value (get_action sc.path) = true)
    (hM : sc.method = "GET") :
    app sc c st
      = ⟨some ⟨200, contentType, retrieveBody st⟩, st, (get_surveys c st).cache⟩ := by
  simp [app, hA, hYes, hHit, hM]

theorem app_other_verb (sc : Scope) (agent : String) (c : Option Catalog) (st : Store)
    (hA : sc.userAgent = some agent) (hYes : clientAllowed agent = true)
    (hHit : catalogHas (get_surveys c st).value (get_action sc.path) = true)
    (hM1 : sc.method ≠ "POST") (hM2 : sc.method ≠ "GET") :
    app sc c st
      = ⟨some ⟨200, contentType, "\"\""⟩, st, (get_surveys c st).cache⟩ := by
  simp [app, hA, hYes, hHit, beq_eq_false_iff_ne.mpr hM1, beq_eq_false_iff_ne.mpr hM2]

theorem jsonStrTail_append_safe (cs : List Char) (d : Char) (rest : List Char)
    (h : ∀ c ∈ cs, c ≠ '"' ∧ c ≠ '\\' ∧ 32 ≤ c.toNat) :
    jsonStrTail (cs ++ (d :: rest)) = jsonStrTail (d :: rest) := by
  induction cs with
  | nil => rfl
  | cons c cs ih =>
    have hc := h c (List.mem_cons_self c cs)
    have hcs : ∀ e ∈ cs, e ≠ '"' ∧ e ≠ '\\' ∧ 32 ≤ e.toNat :=
      fun e he => h e (List.mem_cons_of_mem c he)
    have hble : Nat.ble 32 c.toNat = true := Nat.ble_eq.mpr hc.2.2
    have hstep : jsonStrTail (c :: (cs ++ (d :: rest))) = jsonStrTail (cs ++ (d :: rest)) := by
      cases cs with
      | nil =>
        rw [List.nil_append, jsonStrTail.eq_3, if_neg hc.1, if_neg hc.2.1, hble, Bool.true_and]
      | cons c2 cs2 =>
        rw [List.cons_append, jsonStrTail.eq_3, if_neg hc.1, if_neg hc.2.1, hble, Bool.true_and]
    rw [List.cons_append, hstep, ih hcs]

theorem successBody_valid_of_safe (answer : String)
    (h : ∀ ch ∈ answer.toList, ch ≠ '"' ∧ ch ≠ '\\' ∧ 32 ≤ ch.toNat) :
    isJsonStringLit (successBody answer) = true := by
  have hpre : ∀ ch ∈ "Successfully submitted answer ".toList,
      ch ≠ '"' ∧ ch ≠ '\\' ∧ 32 ≤ ch.toNat := by
    decide
  have hdata : (successBody answer).toList
      = '"' :: ("Successfully submitted answer ".toList
          ++ ('\\' :: '"' :: (answer.toList ++ ['\\', '"', '.', '"']))) := by
    cases answer
    rfl
  have h1 : isJsonStringLit (successBody answer)
      = jsonStrTail ("Successfully submitted answer ".toList
          ++ ('\\' :: '"' :: (answer.toList ++ ['\\', '"', '.', '"']))) := by
    unfold isJsonStringLit
    rw [hdata]
    rfl
  have h2 : jsonStrTail ('\\' :: '"' :: (answer.toList ++ ['\\', '"', '.', '"']))
      = jsonStrTail (answer.toList ++ ['\\', '"', '.', '"']) := rfl
  rw [h1, jsonStrTail_append_safe _ _ _ hpre, h2, jsonStrTail_append_safe _ _ _ h]
  rfl

theorem postN_length (n : Nat) (sc : Scope) (agent : String)
    (hA : sc.userAgent = some agent) (hAllow : clientAllowed agent = true)
    (hM : sc.method = "POST") :
    ∀ (c : Option Catalog) (st : Store),
      catalogHas (get_surveys c st).value (get_action sc.path) = true →
      (postN n sc c st).responses.length = st.responses.length + n := by
  induction n with
  | zero =>
    intro c st _
    rfl
  | succ n ih =>
    intro c st hHit
    have happ := app_post sc agent c st hA hAllow hHit hM
    show (postN n sc (app sc c st).cache (app sc c st).store).responses.length = _
    rw [happ]
    have hHit' : catalogHas
        (get_surveys (get_surveys c st).cache
          { st with responses := st.responses ++ [⟨get_action sc.path, sc.body, agent⟩] }).value
        (get_action sc.path) = true := by
      rw [get_surveys_cache_eq c st]
      exact hHit
    rw [ih (get_surveys c st).cache _ hHit']
    simp only [List.length_append, List.length_cons, List.length_nil]
    omega

/-! ## Claim theorems -/

/-- C1 (counterexample): the claim says the POST success body embeds the
answer with its quotes and backslashes escaped, so that the body is always
valid JSON.  The code interpolates the answer verbatim: for the answer
`Say "hi"` the produced body differs from the claimed escaped body and is
not a well-formed JSON string literal. -/
theorem C1_unescaped_counterexample :
    (app ⟨"POST", "/favorite", some "python-requests", "Say \"hi\""⟩ none seedStore).resp
      = some ⟨200, contentType, successBody "Say \"hi\""⟩
    ∧ successBody "Say \"hi\"" ≠ specSuccessBody "Say \"hi\""
    ∧ isJsonStringLit (successBody "Say \"hi\"") = false :=
  ⟨by decide, by decide, by decide⟩

/-- C1 (amended): for every POST request with an allowed client and a
catalog action, the handler responds 200 with body
`"Successfully submitted answer \"<body>\"."` where `<body>` is the request
body text embedded verbatim (no escaping); the body is a well-formed JSON
string literal whenever the answer contains no quote, no backslash and no
control characters. -/
theorem C1_post_success_body (sc : Scope) (agent : String) (c : Option Catalog) (st : Store)
    (hA : sc.userAgent = some agent) (hAllow : clientAllowed agent = true)
    (hM : sc.method = "POST")
    (hHit : catalogHas (get_surveys c st).value (get_action sc.path) = true) :
    (app sc c st).resp = some ⟨200, contentType, successBody sc.body⟩
    ∧ ((∀ ch ∈ sc.body.toList, ch ≠ '"' ∧ ch ≠ '\\' ∧ 32 ≤ ch.toNat) →
        isJsonStringLit (successBody sc.body) = true) := by
  constructor
  · rw [app_post sc agent c st hA hAllow hHit hM]
  · exact successBody_valid_of_safe sc.body

theorem C1_post_success_body_witness :
    (app ⟨"POST", "/favorite", some "python-requests", "Garter snake"⟩ none seedStore).resp
      = some ⟨200, contentType, successBody "Garter snake"⟩
    ∧ isJsonStringLit (successBody "Garter snake") = true := by
  have h := C1_post_success_body ⟨"POST", "/favorite", some "python-requests", "Garter snake"⟩
    "python-requests" none seedStore rfl (by decide) rfl (by decide)
  exact ⟨h.1, h.2 (by decide)⟩

/-- C3: submitting answer text `A` for a catalog survey via POST (allowed
client) and then retrieving via GET (allowed client, any catalog survey)
yields a JSON array of strings that contains `A` as an element. -/
theorem C3_round_trip (postSc getSc : Scope) (agentP agentG : String) (c : Option Catalog)
    (st : Store)
    (hPA : postSc.userAgent = some agentP) (hPAllow : clientAllowed agentP = true)
    (hPM : postSc.method = "POST")
    (hPHit : catalogHas (get_surveys c st).value (get_action postSc.path) = true)
    (hGA : getSc.userAgent = some agentG) (hGAllow : clientAllowed agentG = true)
    (hGM : getSc.method = "GET")
    (hGHit : catalogHas (get_surveys (app postSc c st).cache (app postSc c st).store).value
               (get_action getSc.path) = true) :
    ∃ l, ((app getSc (app postSc c st).cache (app postSc c st).store).resp).map Resp.body
          = some (jsonArrayOfStrings l)
        ∧ postSc.body ∈ l := by
  refine ⟨(app postSc c st).store.responses.map ResponseRow.data, ?_, ?_⟩
  · rw [app_get getSc agentG _ _ hGA hGAllow hGHit hGM]
    rfl
  · rw [app_post postSc agentP c st hPA hPAllow hPHit hPM]
    simp

theorem C3_round_trip_witness :
    ∃ l, ((app ⟨"GET", "/task", some "python-urllib", ""⟩
            (app ⟨"POST", "/favorite", some "python-urllib", "Garter snake"⟩ none seedStore).cache
            (app ⟨"POST", "/favorite", some "python-urllib", "Garter snake"⟩ none
              seedStore).store).resp).map Resp.body
          = some (jsonArrayOfStrings l)
        ∧ ("Garter snake" : String) ∈ l :=
  C3_round_trip ⟨"POST", "/favorite", some "python-urllib", "Garter snake"⟩
    ⟨"GET", "/task", some "python-urllib", ""⟩ "python-urllib" "python-urllib" none seedStore
    rfl (by decide) rfl (by decide) rfl (by decide) rfl (by decide)

/-- C6: for every response with status other than 200, the body is exactly
the 2-space-indented, trailing-newline rendering of the JSON object with
exactly the keys `error.code` (the integer status code) and `error.message`
(a string) and nothing else. -/
theorem C6_error_envelope (sc : Scope) (c : Option Catalog) (st : Store) (r : Resp)
    (h : (app sc c st).resp = some r) (hne : r.status ≠ 200) :
    ∃ msg, r.body = renderError r.status msg := by
  cases hA : sc.userAgent with
  | none =>
    rw [app_crash sc c st hA] at h
    exact absurd h (by simp)
  | some agent =>
    by_cases hAllow : clientAllowed agent
    · by_cases hHit : catalogHas (get_surveys c st).value (get_action sc.path)
      · by_cases hPost : sc.method = "POST"
        · rw [app_post sc agent c st hA hAllow hHit hPost] at h
          simp only [Option.some.injEq] at h
          subst h
          exact absurd rfl hne
        · by_cases hGet : sc.method = "GET"
          · rw [app_get sc agent c st hA hAllow hHit hGet] at h
            simp only [Option.some.injEq] at h
            subst h
            exact absurd rfl hne
          · rw [app_other_verb sc agent c st hA hAllow hHit hPost hGet] at h
            simp only [Option.some.injEq] at h
            subst h
            exact absurd rfl hne
      · rw [app_404 sc agent c st hA hAllow (by simpa using hHit)] at h
        simp only [Option.some.injEq] at h
        subst h
        exact ⟨"Could not find any survey called " ++ get_action sc.path, rfl⟩
    · rw [app_451 sc agent c st hA (by simpa using hAllow)] at h
      simp only [Option.some.injEq] at h
      subst h
      exact ⟨rejectionMessage, rfl⟩

theorem C6_error_envelope_witness :
    ∃ msg, (Resp.mk 451 contentType (renderError 451 rejectionMessage)).body
      = renderError (Resp.mk 451 contentType (renderError 451 rejectionMessage)).status msg :=
  C6_error_envelope ⟨"GET", "/favorite", some "curl/8.0", ""⟩ none seedStore
    (Resp.mk 451 contentType (renderError 451 rejectionMessage)) (by decide) (by decide)

/-- C8: submit is not idempotent: each successful POST of answer `A` to a
catalog survey inserts exactly one new response row
`{title: action, data: A, agent: clientHeader}`, and `n` repetitions of the
identical POST grow the stored response row count by exactly `n`. -/
theorem C8_submit_not_idempotent (n : Nat) (sc : Scope) (agent : String) (c : Option Catalog)
    (st : Store)
    (hA : sc.userAgent = some agent) (hAllow : clientAllowed agent = true)
    (hM : sc.method = "POST")
    (hHit : catalogHas (get_surveys c st).value (get_action sc.path) = true) :
    (app sc c st).store.responses
      = st.responses ++ [⟨get_action sc.path, sc.body, agent⟩]
    ∧ (postN n sc c st).responses.length = st.responses.length + n := by
  refine ⟨?_, postN_length n sc agent hA hAllow hM c st hHit⟩
  rw [app_post sc agent c st hA hAllow hHit hM]

theorem C8_submit_not_idempotent_witness :
    (app ⟨"POST", "/favorite", some "python-requests", "Garter snake"⟩ none seedStore).store.responses
      = seedStore.responses
          ++ [⟨get_action "/favorite", "Garter snake", "python-requests"⟩]
    ∧ (postN 3 ⟨"POST", "/favorite", some "python-requests", "Garter snake"⟩ none
        seedStore).responses.length = seedStore.responses.length + 3 :=
  C8_submit_not_idempotent 3 ⟨"POST", "/favorite", some "python-requests", "Garter snake"⟩
    "python-requests" none seedStore rfl (by decide) rfl (by decide)

/-- C2: the claim says a request with a missing client-identifier header is
answered with status 451; in the code `scope.headers.get("user-agent")`
returns `None` and `None.casefold()` raises an uncaught `AttributeError`,
so the handler renders no response at all (modelled as `resp = none`).
This theorem evaluates the handler at the failing input. -/
theorem C2_missing_header_no_response :
    (app ⟨"GET", "/favorite", none, ""⟩ none seedStore).resp = none := rfl

/-- C5: for every GET or POST request with an allowed client whose action
(the first path segment after stripping leading/trailing separators,
possibly empty) is not a key of the current catalog snapshot, the response
has status 404 and its message names the requested action verbatim. -/
theorem C5_unknown_action_404 (sc : Scope) (agent : String) (c : Option Catalog) (st : Store)
    (hA : sc.userAgent = some agent) (hAllow : clientAllowed agent = true)
    (_hVerb : sc.method = "GET" ∨ sc.method = "POST")
    (hMiss : catalogHas (get_surveys c st).value (get_action sc.path) = false) :
    (app sc c st).resp
      = some ⟨404, contentType,
          renderError 404 ("Could not find any survey called " ++ get_action sc.path)⟩ := by
  rw [app_404 sc agent c st hA hAllow hMiss]

theorem C5_unknown_action_404_witness :
    (app ⟨"GET", "/unknown", some "python-requests", ""⟩ none seedStore).resp
      = some ⟨404, contentType,
          renderError 404 ("Could not find any survey called " ++ get_action "/unknown")⟩
    ∧ (app ⟨"GET", "/", some "python-requests", ""⟩ none seedStore).resp
      = some ⟨404, contentType,
          renderError 404 ("Could not find any survey called " ++ get_action "/")⟩ :=
  ⟨C5_unknown_action_404 ⟨"GET", "/unknown", some "python-requests", ""⟩ "python-requests"
      none seedStore rfl (by decide) (Or.inl rfl) (by decide),
   C5_unknown_action_404 ⟨"GET", "/", some "python-requests", ""⟩ "python-requests"
      none seedStore rfl (by decide) (Or.inl rfl) (by decide)⟩

/-- C4: for every GET request with an allowed client and an action in the
catalog, the response is 200 and its body is the JSON array of the `data`
strings of ALL stored response rows (unscoped by survey); when no rows
exist, the body is the empty JSON array. -/
theorem C4_get_returns_all_responses (sc : Scope) (agent : String) (c : Option Catalog)
    (st : Store)
    (hA : sc.userAgent = some agent) (hAllow : clientAllowed agent = true)
    (hM : sc.method = "GET")
    (hHit : catalogHas (get_surveys c st).value (get_action sc.path) = true) :
    (app sc c st).resp
      = some ⟨200, contentType, jsonArrayOfStrings (st.responses.map ResponseRow.data)⟩
    ∧ (st.responses = [] →
        jsonArrayOfStrings (st.responses.map ResponseRow.data) = "[]") := by
  constructor
  · rw [app_get sc agent c st hA hAllow hHit hM]
    rfl
  · intro he
    rw [he]
    rfl

theorem C4_get_returns_all_responses_witness :
    (app ⟨"GET", "/favorite", some "python-requests", ""⟩ none seedStore).resp
      = some ⟨200, contentType, jsonArrayOfStrings (seedStore.responses.map ResponseRow.data)⟩
    ∧ (seedStore.responses = [] →
        jsonArrayOfStrings (seedStore.responses.map ResponseRow.data) = "[]") :=
  C4_get_returns_all_responses ⟨"GET", "/favorite", some "python-requests", ""⟩
    "python-requests" none seedStore rfl (by decide) rfl (by decide)

/-- C7: within one process lifetime and with no invalidation in between,
a second call to `get_surveys` returns the same mapping as the first call
even if the survey table changed in between, issues no storage query, and
leaves the cache unchanged (so every later call behaves the same way). -/
theorem C7_catalog_cache_consistency (st1 st2 : Store) :
    (get_surveys (get_surveys none st1).cache st2).value = (get_surveys none st1).value
    ∧ (get_surveys (get_surveys none st1).cache st2).queried = false
    ∧ (get_surveys (get_surveys none st1).cache st2).cache = (get_surveys none st1).cache := by
  simp [get_surveys]

/-- C9: for every request with an allowed client and a catalog action whose
verb is neither POST nor GET, the handler performs no storage write and
responds 200 with the initial empty-string JSON placeholder body. -/
theorem C9_other_verb_placeholder (sc : Scope) (agent : String) (c : Option Catalog)
    (st : Store)
    (hA : sc.userAgent = some agent) (hAllow : clientAllowed agent = true)
    (hHit : catalogHas (get_surveys c st).value (get_action sc.path) = true)
    (hM1 : sc.method ≠ "POST") (hM2 : sc.method ≠ "GET") :
    (app sc c st).resp = some ⟨200, contentType, "\"\""⟩
    ∧ (app sc c st).store = st := by
  rw [app_other_verb sc agent c st hA hAllow hHit hM1 hM2]
  exact ⟨rfl, rfl⟩

theorem C9_other_verb_placeholder_witness :
    (app ⟨"PUT", "/favorite", some "python-requests", "x"⟩ none seedStore).resp
      = some ⟨200, contentType, "\"\""⟩
    ∧ (app ⟨"PUT", "/favorite", some "python-requests", "x"⟩ none seedStore).store
      = seedStore :=
  C9_other_verb_placeholder ⟨"PUT", "/favorite", some "python-requests", "x"⟩
    "python-requests" none seedStore rfl (by decide) (by decide) (by decide) (by decide)

/-- C10: every request the handler processes to completion is answered with
status 200, 404 or 451, and always with the `application/json` content
type. -/
theorem C10_status_and_content_type (sc : Scope) (c : Option Catalog) (st : Store) (r : Resp)
    (h : (app sc c st).resp = some r) :
    (r.status = 200 ∨ r.status = 404 ∨ r.status = 451)
    ∧ r.contentType = "application/json" := by
  cases hA : sc.userAgent with
  | none =>
    rw [app_crash sc c st hA] at h
    exact absurd h (by simp)
  | some agent =>
    by_cases hAllow : clientAllowed agent
    · by_cases hHit : catalogHas (get_surveys c st).value (get_action sc.path)
      · by_cases hPost : sc.method = "POST"
        · rw [app_post sc agent c st hA hAllow hHit hPost] at h
          simp only [Option.some.injEq] at h
          subst h
          exact ⟨Or.inl rfl, rfl⟩
        · by_cases hGet : sc.method = "GET"
          · rw [app_get sc agent c st hA hAllow hHit hGet] at h
            simp only [Option.some.injEq] at h
            subst h
            exact ⟨Or.inl rfl, rfl⟩
          · rw [app_other_verb sc agent c st hA hAllow hHit hPost hGet] at h
            simp only [Option.some.injEq] at h
            subst h
            exact ⟨Or.inl rfl, rfl⟩
      · rw [app_404 sc agent c st hA hAllow (by simpa using hHit)] at h
        simp only [Option.some.injEq] at h
        subst h
        exact ⟨Or.inr (Or.inl rfl), rfl⟩
    · rw [app_451 sc agent c st hA (by simpa using hAllow)] at h
      simp only [Option.some.injEq] at h
      subst h
      exact ⟨Or.inr (Or.inr rfl), rfl⟩

theorem C10_status_and_content_type_witness :
    ((Resp.mk 200 contentType (retrieveBody seedStore)).status = 200
      ∨ (Resp.mk 200 contentType (retrieveBody seedStore)).status = 404
      ∨ (Resp.mk 200 contentType (retrieveBody seedStore)).status = 451)
    ∧ (Resp.mk 200 contentType (retrieveBody seedStore)).contentType = "application/json" :=
  C10_status_and_content_type ⟨"GET", "/favorite", some "python-requests", ""⟩
    none seedStore (Resp.mk 200 contentType (retrieveBody seedStore)) (by decide)

end ApiSurvey
